import Mathlib

/-!
Formal model of the RoastLink TWO (ESP32-S3) flasher build: the loader class
of src/two/update/index.js, together with the protocol components it imports
(serial framing, bootloader session, flash write pipeline, reset controller).
The components imported from modules that are not part of src (webserial.js,
targets/esp32s3.js, reset.js) are modelled from the design specification and
are marked as such in their doc comments; everything else is translated
directly from src/two/update/index.js.
-/

/-- Error kinds of the protocol stack (spec section 7). -/
inductive Err where
  | timeout
  | protocolError
  | sequenceError
  | syncFailed
  | corruptStubImage
  | flashWriteFailed
  | sessionClosed
  | transportError
deriving DecidableEq

/-- An open serial port handle, identified abstractly. -/
structure Port where
  val : Nat
deriving DecidableEq

/-- Modelled from the spec: the Transport wrapper of webserial.js (not under
src). It borrows the externally owned port handle (spec section 3, Transport
Handle). -/
structure Transport where
  port : Port
deriving DecidableEq

/-- Session states of the bootloader session state machine (spec section 4.3). -/
inductive SessionState where
  | unsynced
  | synced
  | stubActive
  | closed
deriving DecidableEq

/-- Flash operations are valid only in the synced or stubActive states
(spec section 4.3). -/
def SessionState.canFlash : SessionState → Bool
  | SessionState.synced => true
  | SessionState.stubActive => true
  | _ => false

/-- Modelled from the spec: the ESP32-S3 target object of targets/esp32s3.js
(not under src): a bootloader session bound to one transport (spec sections 3
and 4.3). -/
structure ESP32S3ROM where
  transport : Transport
  state : SessionState
deriving DecidableEq

/-- Modelled from the spec: the reset controller object of reset.js (not under
src), bound to one transport (spec section 4.6). -/
structure HardReset where
  transport : Transport
deriving DecidableEq

/-- Device-level commands observable on the transport. An argument the caller
did not supply at the call site (JS undefined) is none. -/
inductive Cmd where
  | sync
  | flashBegin (offset totalSize blockCount blockSize : Option Nat)
  | flashData (data : List Nat) (offset : Nat) (compress : Bool)
  | resetPulse (r : HardReset)
deriving DecidableEq

/-- Behaviour of the device at the far end of the transport: whether it
answers the sync handshake, and the outcome it produces for each command. -/
structure DeviceEnv where
  syncOk : Bool
  flashBeginResult : Except Err Unit
  flashDataResult : Except Err Unit
  resetResult : Except Err Unit

/-- Modelled from the spec: sync() of the bootloader session (spec section
4.3): the handshake yields success (entering the synced state) or syncFailed;
a closed session rejects every operation with sessionClosed. -/
def ESP32S3ROM.sync (c : ESP32S3ROM) (env : DeviceEnv) :
    Except Err Unit × List Cmd × ESP32S3ROM :=
  if c.state = SessionState.closed then (Except.error Err.sessionClosed, [], c)
  else if env.syncOk then
    (Except.ok (), [Cmd.sync], { c with state := SessionState.synced })
  else (Except.error Err.syncFailed, [Cmd.sync], c)

/-- Modelled from the spec: flash_begin of the bootloader session. Flash
operations are valid only in the synced or stubActive states (spec section
4.3); in every other state they are rejected with sessionClosed before
anything is sent on the transport. The arguments are those of the wire
command flash_begin(offset, total_size, block_count, block_size) (spec
section 4.5); an argument the caller did not supply is none. -/
def ESP32S3ROM.flash_begin (c : ESP32S3ROM) (env : DeviceEnv)
    (offset totalSize blockCount blockSize : Option Nat) :
    Except Err Unit × List Cmd × ESP32S3ROM :=
  if c.state.canFlash then
    (env.flashBeginResult, [Cmd.flashBegin offset totalSize blockCount blockSize], c)
  else (Except.error Err.sessionClosed, [], c)

/-- Modelled from the spec: flash_data of the bootloader session, guarded
exactly like flash_begin (spec sections 4.3 and 4.5). -/
def ESP32S3ROM.flash_data (c : ESP32S3ROM) (env : DeviceEnv)
    (data : List Nat) (offset : Nat) (compress : Bool) :
    Except Err Unit × List Cmd × ESP32S3ROM :=
  if c.state.canFlash then
    (env.flashDataResult, [Cmd.flashData data offset compress], c)
  else (Except.error Err.sessionClosed, [], c)

/-- Modelled from the spec: perform() of the reset controller drives the
control-line sequence on its transport (spec section 4.6). -/
def HardReset.perform (r : HardReset) (env : DeviceEnv) :
    Except Err Unit × List Cmd :=
  (env.resetResult, [Cmd.resetPulse r])

/-- The ESPLoader class of src/two/update/index.js: the fields assigned by
its constructor. -/
structure ESPLoader where
  port : Port
  transport : Transport
  chip : ESP32S3ROM
deriving DecidableEq

/-- The ESPLoader constructor (src lines 11 to 15): stores the port, wraps it
in a new Transport, and binds a new ESP32S3ROM to that transport (a fresh
session starts unsynced). -/
def ESPLoader.new (p : Port) : ESPLoader :=
  { port := p
    transport := { port := p }
    chip := { transport := { port := p }, state := SessionState.unsynced } }

/-- The JS method named initialize (src lines 17 to 21): awaits
this.chip.sync() and returns this.chip. The console.log call is omitted. The
result is the outcome, the commands sent, and the loader state after the
call. -/
def ESPLoader.initializeChip (st : ESPLoader) (env : DeviceEnv) :
    Except Err ESP32S3ROM × List Cmd × ESPLoader :=
  let r := st.chip.sync env
  match r.1 with
  | Except.ok _ => (Except.ok r.2.2, r.2.1, { st with chip := r.2.2 })
  | Except.error e => (Except.error e, r.2.1, { st with chip := r.2.2 })

/-- eraseFlash() (src lines 23 to 26): awaits this.chip.flash_begin() called
with no arguments. The console.log call is omitted. -/
def ESPLoader.eraseFlash (st : ESPLoader) (env : DeviceEnv) :
    Except Err Unit × List Cmd × ESPLoader :=
  let r := st.chip.flash_begin env none none none none
  (r.1, r.2.1, { st with chip := r.2.2 })

/-- flashData(data, offset = 0x10000, compress = true) (src lines 28 to 31):
awaits this.chip.flash_data(data, offset, compress). An argument the caller
omitted (JS undefined) is none and takes the declared default value. The
console.log call is omitted. -/
def ESPLoader.flashData (st : ESPLoader) (env : DeviceEnv)
    (data : List Nat) (offset : Option Nat) (compress : Option Bool) :
    Except Err Unit × List Cmd × ESPLoader :=
  let r := st.chip.flash_data env data (offset.getD 0x10000) (compress.getD true)
  (r.1, r.2.1, { st with chip := r.2.2 })

/-- hardReset() (src lines 33 to 37): constructs a new HardReset over
this.transport and awaits its perform(). The console.log call is omitted. -/
def ESPLoader.hardReset (st : ESPLoader) (env : DeviceEnv) :
    Except Err Unit × List Cmd × ESPLoader :=
  let reset := HardReset.mk st.transport
  let r := reset.perform env
  (r.1, r.2, st)

/-- The methods declared on the ESPLoader class (src lines 17 to 37), each
with its declared parameter count: initialize(), eraseFlash(),
flashData(data, offset, compress), hardReset(). -/
def ESPLoader.methods : List (String × Nat) :=
  [("initialize", 0), ("eraseFlash", 0), ("flashData", 3), ("hardReset", 0)]

/-- A device that answers every command successfully. -/
def envOk : DeviceEnv :=
  { syncOk := true
    flashBeginResult := Except.ok ()
    flashDataResult := Except.ok ()
    resetResult := Except.ok () }

/-- Split a byte list into consecutive blocks of size S (the last block may
be shorter); the first argument is recursion fuel, at least the list
length. -/
def splitBlocksF : Nat → Nat → List Nat → List (List Nat)
  | _, _, [] => []
  | 0, _, d => [d]
  | fuel + 1, S, a :: d =>
    (a :: List.take (S - 1) d) :: splitBlocksF fuel S (List.drop (S - 1) d)

/-- Split a byte list into consecutive blocks of size S. -/
def splitBlocks (S : Nat) (d : List Nat) : List (List Nat) :=
  splitBlocksF d.length S d

/-- A whole-image compressor with its inverse. Spec section 4.5 step 3
compresses the entire image once with a streaming compressor; the concrete
format is a chip profile matter, so the pipeline is parameterized by the
compressor. -/
structure Compressor where
  comp : List Nat → List Nat
  decomp : List Nat → List Nat
  round_trip : ∀ b, decomp (comp b) = b

/-- Commands issued by the flash write pipeline (spec section 4.5). -/
inductive FlashCmd where
  | flashBegin (offset totalSize blockCount blockSize : Nat)
  | flashData (seq : Nat) (payload : List Nat)
  | flashEnd (reboot : Bool)
deriving DecidableEq

/-- Modelled from the spec: the flash write pipeline of section 4.5 (the
block chunking lives in targets/esp32s3.js, which is not under src). Step 1
computes the block count from the data length, rounded up over the block
size; step 2 issues flash_begin(offset, total_size, block_count, block_size);
step 3 compresses the whole image once when compress is set and splits the
resulting stream (the raw data otherwise) into blocks; step 4 issues one
flash_data per block carrying the block index; step 6 issues flash_end.
Per-block checksums and the progress counter are not modelled. -/
def flashWrite (C : Compressor) (S : Nat) (offset : Nat)
    (data : List Nat) (compress : Bool) : List FlashCmd :=
  let payload := if compress then C.comp data else data
  let blocks := splitBlocks S payload
  FlashCmd.flashBegin offset data.length ((data.length + S - 1) / S) S
    :: ((List.enumFrom 0 blocks).map fun ib => FlashCmd.flashData ib.1 ib.2)
    ++ [FlashCmd.flashEnd false]

/-- The payloads of the flash_data commands of a trace, in order. -/
def dataPayloads (cmds : List FlashCmd) : List (List Nat) :=
  cmds.filterMap fun c =>
    match c with
    | FlashCmd.flashData _ p => some p
    | _ => none

/-- The number of flash_data commands of a trace. -/
def countFlashData (cmds : List FlashCmd) : Nat :=
  (dataPayloads cmds).length

/-- A concrete compressor in the shape of a zlib stream: a two-byte header in
front of the raw bytes; its inverse drops the header. -/
def headerCompressor : Compressor where
  comp := fun b => 0x78 :: 0x9C :: b
  decomp := fun b => b.drop 2
  round_trip := fun _ => rfl

/-- Modelled from the spec: the frame delimiter byte of the framing layer of
webserial.js (not under src) (spec section 4.1). -/
def delimiter : Nat := 0xC0

/-- The escape byte of the framing layer. -/
def escape : Nat := 0xDB

/-- The escape code standing for an escaped delimiter byte. -/
def escEnd : Nat := 0xDC

/-- The escape code standing for an escaped escape byte. -/
def escEsc : Nat := 0xDD

/-- Encoding of one payload byte: a byte equal to the delimiter or to the
escape byte becomes a two-byte escape sequence (spec section 4.1). -/
def escByte (b : Nat) : List Nat :=
  if b = delimiter then [escape, escEnd]
  else if b = escape then [escape, escEsc]
  else [b]

/-- Modelled from the spec: encode of the framing layer (spec section 4.1)
wraps the escaped payload in start and end delimiter bytes. -/
def encode (payload : List Nat) : List Nat :=
  delimiter :: (payload.map escByte).flatten ++ [delimiter]

/-- Result of decoding a received byte stream (spec section 4.1). -/
inductive DecodeResult where
  | ok (payload : List Nat)
  | incomplete
  | corrupt
deriving DecidableEq

/-- Body of decode: consume bytes up to the terminating delimiter, reversing
the escaping; an exhausted stream is incomplete, an escape byte followed by
an invalid escape code is corrupt (spec section 4.1). -/
def decodeBody : List Nat → List Nat → DecodeResult
  | [], _ => DecodeResult.incomplete
  | b :: rest, acc =>
    if b = delimiter then DecodeResult.ok acc.reverse
    else if b = escape then
      match rest with
      | [] => DecodeResult.incomplete
      | c :: rest2 =>
        if c = escEnd then decodeBody rest2 (delimiter :: acc)
        else if c = escEsc then decodeBody rest2 (escape :: acc)
        else DecodeResult.corrupt
    else decodeBody rest (b :: acc)

/-- Modelled from the spec: decode of the framing layer (spec section 4.1):
the frame opens with the start delimiter, then the payload runs to the
terminating delimiter. -/
def decode : List Nat → DecodeResult
  | [] => DecodeResult.incomplete
  | b :: rest =>
    if b = delimiter then decodeBody rest []
    else DecodeResult.corrupt

/-- Concatenating the blocks produced by splitBlocksF gives back the source
list, provided the fuel covers the list length. -/
theorem splitBlocksF_flatten (fuel : Nat) : ∀ (d : List Nat) (S : Nat),
    d.length ≤ fuel → (splitBlocksF fuel S d).flatten = d := by
  induction fuel with
  | zero =>
    intro d S hd
    match d with
    | [] => rfl
    | a :: d => simp at hd
  | succ fuel ih =>
    intro d S hd
    match d with
    | [] => rfl
    | a :: d =>
      simp only [splitBlocksF, List.flatten_cons]
      rw [ih (List.drop (S - 1) d) S (by simp only [List.length_drop]; simp at hd; omega)]
      simp [List.take_append_drop]

/-- Concatenating the blocks of splitBlocks gives back the source list. -/
theorem splitBlocks_flatten (S : Nat) (d : List Nat) :
    (splitBlocks S d).flatten = d :=
  splitBlocksF_flatten d.length d S (Nat.le_refl _)

/-- The number of blocks produced by splitBlocksF is the list length divided
by S, rounded up, provided S is positive and the fuel covers the length. -/
theorem splitBlocksF_length (fuel : Nat) : ∀ (d : List Nat) (S : Nat),
    0 < S → d.length ≤ fuel →
    (splitBlocksF fuel S d).length = (d.length + S - 1) / S := by
  induction fuel with
  | zero =>
    intro d S hS hd
    match d with
    | [] =>
      simp only [List.length_nil]
      rw [Nat.div_eq_of_lt (by omega : 0 + S - 1 < S)]
      rfl
    | a :: d => simp at hd
  | succ fuel ih =>
    intro d S hS hd
    match d with
    | [] =>
      simp only [List.length_nil]
      rw [Nat.div_eq_of_lt (by omega : 0 + S - 1 < S)]
      rfl
    | a :: d =>
      simp only [splitBlocksF, List.length_cons]
      rw [ih (List.drop (S - 1) d) S hS (by simp only [List.length_drop]; simp at hd; omega)]
      simp only [List.length_drop]
      have hsum : d.length + 1 + S - 1 = d.length + S := by omega
      rw [hsum, Nat.add_div_right _ hS]
      rcases Nat.lt_or_ge d.length (S - 1) with h | h
      · have h1 : d.length - (S - 1) = 0 := by omega
        rw [h1]
        have h2 : (0 + S - 1) / S = 0 := Nat.div_eq_of_lt (by omega)
        have h3 : d.length / S = 0 := Nat.div_eq_of_lt (by omega)
        rw [h2, h3]
      · have h1 : d.length - (S - 1) + S - 1 = d.length := by omega
        rw [h1]

/-- The number of blocks of splitBlocks is the length divided by S, rounded
up, for positive S. -/
theorem splitBlocks_length (S : Nat) (d : List Nat) (hS : 0 < S) :
    (splitBlocks S d).length = (d.length + S - 1) / S :=
  splitBlocksF_length d.length d S hS (Nat.le_refl _)

/-- Extracting the payloads from the enumerated flash_data commands of a
block list gives back the blocks. -/
theorem dataPayloads_enum (bs : List (List Nat)) : ∀ n : Nat,
    ((List.enumFrom n bs).map fun ib => FlashCmd.flashData ib.1 ib.2).filterMap
      (fun c =>
        match c with
        | FlashCmd.flashData _ p => some p
        | _ => none) = bs := by
  induction bs with
  | nil => intro n; rfl
  | cons b bs ih =>
    intro n
    simp only [List.enumFrom, List.map_cons, List.filterMap_cons]
    rw [ih (n + 1)]

/-- The flash_data payloads of a flashWrite trace are exactly the blocks of
the (possibly compressed) payload stream. -/
theorem dataPayloads_flashWrite (C : Compressor) (S offset : Nat)
    (data : List Nat) (compress : Bool) :
    dataPayloads (flashWrite C S offset data compress)
      = splitBlocks S (if compress then C.comp data else data) := by
  unfold flashWrite dataPayloads
  simp only [List.filterMap_cons, List.filterMap_append]
  rw [dataPayloads_enum]
  simp


/-- A stream starting with the delimiter decodes to the accumulated payload. -/
theorem decodeBody_delim (rest acc : List Nat) :
    decodeBody (delimiter :: rest) acc = DecodeResult.ok acc.reverse := by
  cases rest <;> rfl

/-- An escaped delimiter byte is unescaped and accumulated. -/
theorem decodeBody_escEnd (rest acc : List Nat) :
    decodeBody (escape :: escEnd :: rest) acc = decodeBody rest (delimiter :: acc) := rfl

/-- An escaped escape byte is unescaped and accumulated. -/
theorem decodeBody_escEsc (rest acc : List Nat) :
    decodeBody (escape :: escEsc :: rest) acc = decodeBody rest (escape :: acc) := rfl

/-- An ordinary byte is accumulated unchanged. -/
theorem decodeBody_plain (b : Nat) (hb : b ≠ delimiter) (hb2 : b ≠ escape)
    (rest acc : List Nat) :
    decodeBody (b :: rest) acc = decodeBody rest (b :: acc) := by
  cases rest <;> simp [decodeBody, hb, hb2]

/-- Decoding the escaped body of an encoded payload, followed by the
terminating delimiter, yields the accumulator (reversed) followed by the
payload. -/
theorem decodeBody_encoded (p : List Nat) : ∀ acc : List Nat,
    decodeBody ((p.map escByte).flatten ++ [delimiter]) acc
      = DecodeResult.ok (acc.reverse ++ p) := by
  induction p with
  | nil =>
    intro acc
    simp [decodeBody_delim]
  | cons b p ih =>
    intro acc
    by_cases hb : b = delimiter
    · subst hb
      have e1 : escByte delimiter = [escape, escEnd] := by simp [escByte]
      simp only [List.map_cons, List.flatten_cons, e1, List.cons_append,
        List.nil_append, List.append_assoc]
      rw [decodeBody_escEnd, ih (delimiter :: acc)]
      simp
    · by_cases hb2 : b = escape
      · subst hb2
        have e1 : escByte escape = [escape, escEsc] := by
          simp [escByte, show escape ≠ delimiter from by decide]
        simp only [List.map_cons, List.flatten_cons, e1, List.cons_append,
          List.nil_append, List.append_assoc]
        rw [decodeBody_escEsc, ih (escape :: acc)]
        simp
      · have e1 : escByte b = [b] := by simp [escByte, hb, hb2]
        simp only [List.map_cons, List.flatten_cons, e1, List.cons_append,
          List.nil_append, List.append_assoc]
        rw [decodeBody_plain b hb hb2, ih (b :: acc)]
        simp

/-- C7: framing round trip: for every byte sequence, decoding the encoding of
the sequence yields exactly that sequence back. -/
theorem C7_round_trip (p : List Nat) : decode (encode p) = DecodeResult.ok p := by
  have h := decodeBody_encoded p []
  simp only [List.reverse_nil, List.nil_append] at h
  simp [encode, decode, h]

/-- flash_begin never changes the session object it is called on. -/
theorem flash_begin_chip (c : ESP32S3ROM) (env : DeviceEnv)
    (o t bc bs : Option Nat) : (c.flash_begin env o t bc bs).2.2 = c := by
  unfold ESP32S3ROM.flash_begin
  split <;> rfl

/-- flash_data never changes the session object it is called on. -/
theorem flash_data_chip (c : ESP32S3ROM) (env : DeviceEnv)
    (d : List Nat) (o : Nat) (cp : Bool) : (c.flash_data env d o cp).2.2 = c := by
  unfold ESP32S3ROM.flash_data
  split <;> rfl

/-- sync never changes the transport binding of the session. -/
theorem sync_transport (c : ESP32S3ROM) (env : DeviceEnv) :
    ((c.sync env).2.2).transport = c.transport := by
  unfold ESP32S3ROM.sync
  split
  · rfl
  · split <;> rfl

/-- eraseFlash leaves the loader fields unchanged. -/
theorem eraseFlash_post (st : ESPLoader) (env : DeviceEnv) :
    (st.eraseFlash env).2.2 = st := by
  show { st with chip := (st.chip.flash_begin env none none none none).2.2 } = st
  rw [flash_begin_chip]

/-- flashData leaves the loader fields unchanged. -/
theorem flashData_post (st : ESPLoader) (env : DeviceEnv)
    (d : List Nat) (o : Option Nat) (c : Option Bool) :
    (st.flashData env d o c).2.2 = st := by
  show { st with chip := (st.chip.flash_data env d (o.getD 0x10000) (c.getD true)).2.2 } = st
  rw [flash_data_chip]

/-- C1 counterexample: the loader class declares no close(), load_stub() or
sync() method at all, and its erase-like and reset-like methods
(eraseFlash and hardReset) declare zero parameters, so the erase operation
accepts no flash offset and no length and the reset operation accepts no
mode, contradicting the claimed surface. -/
theorem C1_counterexample :
    ESPLoader.methods.lookup "close" = none ∧
    ESPLoader.methods.lookup "load_stub" = none ∧
    ESPLoader.methods.lookup "sync" = none ∧
    ESPLoader.methods.lookup "eraseFlash" = some 0 ∧
    ESPLoader.methods.lookup "hardReset" = some 0 :=
  ⟨rfl, rfl, rfl, rfl, rfl⟩

/-- C1 (amended): the public surface produced by the loader consists of
initialize() (which performs the sync), eraseFlash() taking no offset and no
length, flashData(data, offset, compress), and hardReset() taking no mode
and always performing the hard-reset sequence over the loader transport;
there is no erase-, write-, reset-, close- or load_stub-named operation and
no progress callback. -/
theorem C1_surface :
    ESPLoader.methods.map Prod.fst = ["initialize", "eraseFlash", "flashData", "hardReset"] ∧
    ESPLoader.methods.lookup "flashData" = some 3 ∧
    ESPLoader.methods.lookup "erase" = none ∧
    ESPLoader.methods.lookup "write" = none ∧
    ESPLoader.methods.lookup "reset" = none ∧
    (∀ (st : ESPLoader) (env : DeviceEnv),
      (st.hardReset env).2.1 = [Cmd.resetPulse (HardReset.mk st.transport)]) := by
  refine ⟨rfl, rfl, rfl, rfl, rfl, ?_⟩
  intro st env
  rfl

/-- C2 counterexample: on a freshly synced loader, eraseFlash issues a
flash_begin that carries no offset, no total size, no block count and no
block size, so no invocation in which flash_begin carries those four derived
arguments exists on the erase path. -/
theorem C2_counterexample :
    ¬ ∃ offset totalSize blockCount blockSize : Nat,
      ((((ESPLoader.new { val := 0 }).initializeChip envOk).2.2).eraseFlash envOk).2.1
        = [Cmd.flashBegin (some offset) (some totalSize) (some blockCount) (some blockSize)] := by
  intro h
  obtain ⟨o, t, bc, bs, h⟩ := h
  have he : ((((ESPLoader.new { val := 0 }).initializeChip envOk).2.2).eraseFlash envOk).2.1
      = [Cmd.flashBegin none none none none] := rfl
  rw [he] at h
  simp at h

/-- C2 (amended): the loader's erase operation issues flash_begin carrying no
arguments at all (it has no offset or length to derive them from), while the
spec-modelled write pipeline is the one that issues flash_begin(offset,
total_size, block_count, block_size) with the block count rounded up from
the data length over the block size. -/
theorem C2_flash_begin_args :
    (∀ (st : ESPLoader) (env : DeviceEnv), st.chip.state.canFlash = true →
      (st.eraseFlash env).2.1 = [Cmd.flashBegin none none none none]) ∧
    (∀ (C : Compressor) (S offset : Nat) (data : List Nat) (compress : Bool),
      (flashWrite C S offset data compress).head?
        = some (FlashCmd.flashBegin offset data.length ((data.length + S - 1) / S) S)) := by
  constructor
  · intro st env h
    have hfb : st.chip.flash_begin env none none none none
        = (env.flashBeginResult, [Cmd.flashBegin none none none none], st.chip) := by
      simp [ESP32S3ROM.flash_begin, h]
    show (st.chip.flash_begin env none none none none).2.1 = _
    rw [hfb]
  · intro C S offset data compress
    rfl

/-- C2 witness: the two parts of the amended statement at concrete inputs. -/
theorem C2_witness :
    ((((ESPLoader.new { val := 0 }).initializeChip envOk).2.2).eraseFlash envOk).2.1
      = [Cmd.flashBegin none none none none] ∧
    (flashWrite headerCompressor 4 4096 [1, 2, 3, 4] true).head?
      = some (FlashCmd.flashBegin 4096 4 1 4) := by
  constructor
  · exact C2_flash_begin_args.1 (((ESPLoader.new { val := 0 }).initializeChip envOk).2.2)
      envOk rfl
  · exact C2_flash_begin_args.2 headerCompressor 4 4096 [1, 2, 3, 4] true

/-- C3: flash operations issue a device command exactly when the session is
in the synced or stubActive state; in every other state (never synced, or
closed) they are rejected with sessionClosed and nothing is sent on the
transport. -/
theorem C3_session_guard (st : ESPLoader) (env : DeviceEnv)
    (d : List Nat) (o : Option Nat) (c : Option Bool) :
    (st.chip.state.canFlash = false →
      st.eraseFlash env = (Except.error Err.sessionClosed, [], st) ∧
      st.flashData env d o c = (Except.error Err.sessionClosed, [], st)) ∧
    (st.chip.state.canFlash = true →
      (st.eraseFlash env).2.1 = [Cmd.flashBegin none none none none] ∧
      (st.flashData env d o c).2.1 = [Cmd.flashData d (o.getD 0x10000) (c.getD true)]) := by
  constructor
  · intro h
    have hfb : st.chip.flash_begin env none none none none
        = (Except.error Err.sessionClosed, [], st.chip) := by
      simp [ESP32S3ROM.flash_begin, h]
    have hfd : st.chip.flash_data env d (o.getD 0x10000) (c.getD true)
        = (Except.error Err.sessionClosed, [], st.chip) := by
      simp [ESP32S3ROM.flash_data, h]
    constructor
    · show ((st.chip.flash_begin env none none none none).1, _,
        { st with chip := (st.chip.flash_begin env none none none none).2.2 }) = _
      rw [hfb]
    · show ((st.chip.flash_data env d (o.getD 0x10000) (c.getD true)).1, _,
        { st with chip := (st.chip.flash_data env d (o.getD 0x10000) (c.getD true)).2.2 }) = _
      rw [hfd]
  · intro h
    have hfb : st.chip.flash_begin env none none none none
        = (env.flashBeginResult, [Cmd.flashBegin none none none none], st.chip) := by
      simp [ESP32S3ROM.flash_begin, h]
    have hfd : st.chip.flash_data env d (o.getD 0x10000) (c.getD true)
        = (env.flashDataResult, [Cmd.flashData d (o.getD 0x10000) (c.getD true)], st.chip) := by
      simp [ESP32S3ROM.flash_data, h]
    constructor
    · show (st.chip.flash_begin env none none none none).2.1 = _
      rw [hfb]
    · show (st.chip.flash_data env d (o.getD 0x10000) (c.getD true)).2.1 = _
      rw [hfd]

/-- C3 witness: a freshly constructed, never-synced loader rejects both flash
operations with sessionClosed and sends nothing. -/
theorem C3_witness :
    (ESPLoader.new { val := 0 }).eraseFlash envOk
        = (Except.error Err.sessionClosed, [], ESPLoader.new { val := 0 }) ∧
    (ESPLoader.new { val := 0 }).flashData envOk [1] none none
        = (Except.error Err.sessionClosed, [], ESPLoader.new { val := 0 }) := by
  have h := C3_session_guard (ESPLoader.new { val := 0 }) envOk [1] none none
  exact ⟨(h.1 rfl).1, (h.1 rfl).2⟩

/-- C4: every public operation of the loader returns an explicit outcome, an
ok value or a typed Err failure, and that outcome mirrors the outcome of the
underlying device command exactly: nothing is swallowed, and the JS method
named initialize additionally returns the chip held by the loader on
success. -/
theorem C4_explicit_outcomes (st : ESPLoader) (env : DeviceEnv)
    (d : List Nat) (o : Option Nat) (c : Option Bool) :
    ((st.initializeChip env).1
        = Except.map (fun _ => (st.initializeChip env).2.2.chip) (st.chip.sync env).1) ∧
    (st.eraseFlash env).1 = (st.chip.flash_begin env none none none none).1 ∧
    (st.flashData env d o c).1 = (st.chip.flash_data env d (o.getD 0x10000) (c.getD true)).1 ∧
    (st.hardReset env).1 = ((HardReset.mk st.transport).perform env).1 := by
  refine ⟨?_, rfl, rfl, rfl⟩
  cases hr : (st.chip.sync env).1 <;>
    simp [ESPLoader.initializeChip, hr, Except.map]

/-- C5: a flashData call that omits the compress argument behaves exactly as
a call passing compress = true: the chip command it issues carries
compress = true (the data is sent through the compressed path). -/
theorem C5_compress_default (st : ESPLoader) (env : DeviceEnv)
    (d : List Nat) (o : Option Nat) :
    st.flashData env d o none = st.flashData env d o (some true) ∧
    (st.chip.state.canFlash = true →
      (st.flashData env d o none).2.1 = [Cmd.flashData d (o.getD 0x10000) true]) := by
  constructor
  · rfl
  · intro h
    have hfd : st.chip.flash_data env d (o.getD 0x10000) true
        = (env.flashDataResult, [Cmd.flashData d (o.getD 0x10000) true], st.chip) := by
      simp [ESP32S3ROM.flash_data, h]
    show (st.chip.flash_data env d (o.getD 0x10000) true).2.1 = _
    rw [hfd]

/-- C5 witness: on a synced loader, flashData with compress omitted issues a
flash_data carrying compress = true. -/
theorem C5_witness :
    ((((ESPLoader.new { val := 0 }).initializeChip envOk).2.2).flashData
        envOk [7] none none).2.1
      = [Cmd.flashData [7] 0x10000 true] :=
  (C5_compress_default (((ESPLoader.new { val := 0 }).initializeChip envOk).2.2)
    envOk [7] none).2 rfl

/-- C6 counterexample: under compression the number of flash_data commands is
not the rounded-up image length over the block size: a four-byte image with
block size four yields two flash_data commands, not one, because the
compressed stream (here with a two-byte header) is what gets split into
blocks. -/
theorem C6_counterexample :
    ¬ countFlashData (flashWrite headerCompressor 4 0 [0, 0, 0, 0] true)
        = (List.length [0, 0, 0, 0] + 4 - 1) / 4 := by decide

/-- C6 (amended): without compression the write pipeline issues exactly
ceil(L/S) flash_data commands and concatenating the block payloads
reproduces the image; with compression it issues ceil(C/S) commands where C
is the compressed length, and decompressing the concatenation of the block
payloads reproduces the image. -/
theorem C6_block_accounting (C : Compressor) (S offset : Nat) (data : List Nat)
    (hS : 0 < S) :
    (countFlashData (flashWrite C S offset data false) = (data.length + S - 1) / S ∧
      (dataPayloads (flashWrite C S offset data false)).flatten = data) ∧
    (countFlashData (flashWrite C S offset data true)
        = ((C.comp data).length + S - 1) / S ∧
      C.decomp (dataPayloads (flashWrite C S offset data true)).flatten = data) := by
  refine ⟨⟨?_, ?_⟩, ?_, ?_⟩
  · rw [countFlashData, dataPayloads_flashWrite]
    simp [splitBlocks_length S data hS]
  · rw [dataPayloads_flashWrite]
    simp [splitBlocks_flatten]
  · rw [countFlashData, dataPayloads_flashWrite]
    simp [splitBlocks_length S (C.comp data) hS]
  · rw [dataPayloads_flashWrite]
    simp [splitBlocks_flatten, C.round_trip]

/-- C6 witness: the amended accounting at a concrete five-byte image with
block size four, uncompressed and compressed. -/
theorem C6_witness :
    0 < 4 ∧
    countFlashData (flashWrite headerCompressor 4 0 [1, 2, 3, 4, 5] false) = 2 ∧
    (dataPayloads (flashWrite headerCompressor 4 0 [1, 2, 3, 4, 5] false)).flatten
      = [1, 2, 3, 4, 5] ∧
    headerCompressor.decomp
      (dataPayloads (flashWrite headerCompressor 4 0 [1, 2, 3, 4, 5] true)).flatten
      = [1, 2, 3, 4, 5] := by
  have h := C6_block_accounting headerCompressor 4 0 [1, 2, 3, 4, 5] (by decide)
  exact ⟨by decide, h.1.1, h.1.2, h.2.2⟩

/-- C8: a flashData call that omits both the offset and the compress
arguments behaves exactly as a call passing offset = 0x10000 and
compress = true. -/
theorem C8_offset_default (st : ESPLoader) (env : DeviceEnv) (d : List Nat) :
    st.flashData env d none none = st.flashData env d (some 0x10000) (some true) := rfl

/-- C9: the constructor stores the port, a Transport wrapping it, and a chip
bound to that same transport; no public operation changes the port, the
transport, or the chip transport binding (the flash and reset operations
leave the whole loader untouched), and the JS method named initialize
returns, on success, exactly the chip held in the loader after the call. -/
theorem C9_constructor_wiring (p : Port) (st : ESPLoader) (env : DeviceEnv)
    (d : List Nat) (o : Option Nat) (c : Option Bool) :
    ((ESPLoader.new p).port = p ∧
      (ESPLoader.new p).transport = { port := p } ∧
      (ESPLoader.new p).chip.transport = (ESPLoader.new p).transport ∧
      (ESPLoader.new p).chip.state = SessionState.unsynced) ∧
    ((st.initializeChip env).2.2.port = st.port ∧
      (st.initializeChip env).2.2.transport = st.transport ∧
      (st.initializeChip env).2.2.chip.transport = st.chip.transport ∧
      (st.eraseFlash env).2.2 = st ∧
      (st.flashData env d o c).2.2 = st ∧
      (st.hardReset env).2.2 = st) ∧
    (st.initializeChip env).1
      = Except.map (fun _ => (st.initializeChip env).2.2.chip) (st.chip.sync env).1 := by
  refine ⟨⟨rfl, rfl, rfl, rfl⟩, ⟨?_, ?_, ?_, eraseFlash_post st env,
    flashData_post st env d o c, rfl⟩, ?_⟩
  · cases hr : (st.chip.sync env).1 <;> simp [ESPLoader.initializeChip, hr]
  · cases hr : (st.chip.sync env).1 <;> simp [ESPLoader.initializeChip, hr]
  · cases hr : (st.chip.sync env).1 <;>
      simp [ESPLoader.initializeChip, hr, sync_transport]
  · cases hr : (st.chip.sync env).1 <;>
      simp [ESPLoader.initializeChip, hr, Except.map]

/-- C10: hardReset constructs a fresh HardReset over the loader's existing
transport and performs it (the performed pulse carries exactly that
instance), leaving the loader's port, transport and chip fields unchanged. -/
theorem C10_hard_reset_frame (st : ESPLoader) (env : DeviceEnv) :
    st.hardReset env
      = (((HardReset.mk st.transport).perform env).1,
        [Cmd.resetPulse (HardReset.mk st.transport)], st) := rfl
